import Mathlib

/-!
Shallow embedding of the mortgage-calculator core (App.tsx) of the
repository nkconnor/mortage-calculator.

JavaScript numbers are modelled by exact rationals (the spec states all
numeric claims up to a floating-point tolerance, and the concrete inputs
involved are small enough that float64 evaluation agrees with exact
rational evaluation to far below that tolerance).  A JavaScript division
whose result can be non-finite (NaN or an infinity) is modelled separately
by jsDiv, which returns none exactly when the denominator is zero.

Two variants of the component occur in the source history: the current one
(calculateMortgage, with principal = loanAmount, plus the two linked-field
reconciliation effects) and an earlier one (calculateMortgageV2, with
principal = loanAmount - downPayment and no reconciliation effects).
-/

/-- Funding-source record, one entry of the component state, mirroring the
TypeScript type FundingSource (the optional per-source parameters are
carried but never used by the calculation, exactly as in the source). -/
structure FundingSource where
  id : String
  name : String
  enabled : Bool
  amount : ℚ
  monthlyContribution : Option ℚ := none
  interestRate : Option ℚ := none
  appreciationRate : Option ℚ := none
  rentalIncome : Option ℚ := none
  taxRate : Option ℚ := none
deriving Repr

/-- Form data, mirroring the TypeScript type MortgageCalculatorFormData.
loanTerm is a natural number because the source uses it only as
loanTerm * 12, the exponent of Math.pow, and the UI restricts it to the
enumerated set 15, 20, 30. -/
structure MortgageCalculatorFormData where
  loanAmount : ℚ
  interestRate : ℚ
  loanTerm : ℕ
  downPayment : ℚ
  propertyValue : ℚ
  fundingSources : List FundingSource
deriving Repr

/-- Result of one calculate action: the three summary figures plus the
funding-source breakdown (name and currency value per source).
monthlyPayment, totalInterest and breakdown are the component states set
by calculateMortgage; totalCost is rendered as
formValues.loanAmount + totalInterest. -/
structure CalculationResult where
  monthlyPayment : ℚ
  totalInterest : ℚ
  totalCost : ℚ
  breakdown : List (String × ℚ)
deriving Repr

/-- Initial funding sources of the component, verbatim from the source. -/
def initialFundingSources : List FundingSource :=
  [ { id := "earned_income", name := "Earned Income", enabled := true,
      amount := 5000, monthlyContribution := some 3000 },
    { id := "existing_house", name := "Sell Existing House", enabled := false,
      amount := 200000, appreciationRate := some 3 },
    { id := "pledged_asset", name := "Pledged Asset Mortgage", enabled := false,
      amount := 100000, interestRate := some 4 },
    { id := "rental_income", name := "Rental Income", enabled := false,
      amount := 0, rentalIncome := some 1500 },
    { id := "securities", name := "Sell Securities", enabled := false,
      amount := 50000, appreciationRate := some 7, taxRate := some 15 } ]

/-- Total funding: the source computes
fundingSources.filter(enabled).reduce((acc, s) => acc + s.amount, 0). -/
def totalFunding (fundingSources : List FundingSource) : ℚ :=
  (fundingSources.filter fun s => s.enabled).foldl (fun acc s => acc + s.amount) 0

/-- The calculateMortgage handler of the current variant, as a pure function
of the form data and the fundingSources component state it closes over.
principal = data.loanAmount.  Division here is exact rational division;
the one division whose JavaScript result can be non-finite is modelled
separately by monthlyPaymentJS below. -/
def calculateMortgage (data : MortgageCalculatorFormData)
    (fundingSources : List FundingSource) : CalculationResult :=
  let principal := data.loanAmount
  let monthlyRate := data.interestRate / 100 / 12
  let numberOfPayments := data.loanTerm * 12
  let x := (1 + monthlyRate) ^ numberOfPayments
  let monthly := principal * x * monthlyRate / (x - 1)
  let totalInterest := monthly * (numberOfPayments : ℚ) - principal
  let breakdown :=
    (fundingSources.filter fun s => s.enabled && decide (0 < s.amount)).map
      fun s => (s.name, s.amount / totalFunding fundingSources * data.downPayment)
  { monthlyPayment := monthly
    totalInterest := totalInterest
    totalCost := data.loanAmount + totalInterest
    breakdown := breakdown }

/-- The calculateMortgage handler of the earlier variant, identical except
that principal = data.loanAmount - data.downPayment. -/
def calculateMortgageV2 (data : MortgageCalculatorFormData)
    (fundingSources : List FundingSource) : CalculationResult :=
  let principal := data.loanAmount - data.downPayment
  let monthlyRate := data.interestRate / 100 / 12
  let numberOfPayments := data.loanTerm * 12
  let x := (1 + monthlyRate) ^ numberOfPayments
  let monthly := principal * x * monthlyRate / (x - 1)
  let totalInterest := monthly * (numberOfPayments : ℚ) - principal
  let breakdown :=
    (fundingSources.filter fun s => s.enabled && decide (0 < s.amount)).map
      fun s => (s.name, s.amount / totalFunding fundingSources * data.downPayment)
  { monthlyPayment := monthly
    totalInterest := totalInterest
    totalCost := data.loanAmount + totalInterest
    breakdown := breakdown }

/-- JavaScript division, tracking finiteness: none exactly when the
denominator is zero, in which case JavaScript yields an infinity (nonzero
numerator) or NaN (zero numerator), never a finite number. -/
def jsDiv (a b : ℚ) : Option ℚ := if b = 0 then none else some (a / b)

/-- The monthly payment under JavaScript float semantics: the single
division of the amortization formula can have a zero denominator (the
source has no guard for monthlyRate == 0 or numberOfPayments == 0), and
there jsDiv records the non-finite result as none. -/
def monthlyPaymentJS (data : MortgageCalculatorFormData) : Option ℚ :=
  let principal := data.loanAmount
  let monthlyRate := data.interestRate / 100 / 12
  let numberOfPayments := data.loanTerm * 12
  let x := (1 + monthlyRate) ^ numberOfPayments
  jsDiv (principal * x * monthlyRate) (x - 1)

/-- totalInterest under JavaScript float semantics: monthly * n - principal,
non-finite (none) whenever the monthly payment already is. -/
def totalInterestJS (data : MortgageCalculatorFormData) : Option ℚ :=
  (monthlyPaymentJS data).map
    fun monthly => monthly * ((data.loanTerm * 12 : ℕ) : ℚ) - data.loanAmount

/-- The useEffect of the current variant that rederives loanAmount from
propertyValue and downPayment.  It no-ops when the re-entrancy flag
isUpdating is set, when watchPropertyValue is falsy (zero, for a number),
or when the recomputed amount is within 0.01 of the current one; otherwise
it writes max(0, propertyValue - downPayment) to loanAmount.  The source
reads (watchLoanAmount || 0), which equals watchLoanAmount for every
rational; watchDownPayment !== undefined always holds for form fields with
defaults. -/
def updateLoanAmountEffect (isUpdating : Bool)
    (watchPropertyValue watchDownPayment watchLoanAmount : ℚ) : ℚ :=
  if isUpdating then watchLoanAmount
  else if watchPropertyValue = 0 then watchLoanAmount
  else
    let calculatedLoanAmount := max 0 (watchPropertyValue - watchDownPayment)
    if |calculatedLoanAmount - watchLoanAmount| > 1/100 then calculatedLoanAmount
    else watchLoanAmount

/-- The default form values of the current variant, which are also the
inputs of Example 1 of the spec. -/
def example1 : MortgageCalculatorFormData :=
  { loanAmount := 300000
    interestRate := 9/2
    loanTerm := 30
    downPayment := 60000
    propertyValue := 360000
    fundingSources := initialFundingSources }

/-- Breakdown under JavaScript float semantics: the per-source division by
totalFunding goes through jsDiv, so a non-finite value would show up as
none.  Used to state that the guarded empty case produces no NaN. -/
def breakdownJS (fundingSources : List FundingSource) (downPayment : ℚ) :
    List (String × Option ℚ) :=
  (fundingSources.filter fun s => s.enabled && decide (0 < s.amount)).map
    fun s => (s.name,
      (jsDiv s.amount (totalFunding fundingSources)).map fun q => q * downPayment)

/-- Funding-source state in which the only enabled source has amount 0,
used as a concrete instance of the zero-funding guard. -/
def zeroFundingState : List FundingSource :=
  [ { id := "earned_income", name := "Earned Income", enabled := true,
      amount := 0, monthlyContribution := some 3000 },
    { id := "existing_house", name := "Sell Existing House", enabled := false,
      amount := 200000, appreciationRate := some 3 } ]

/-! Helper lemmas about the funding lists. -/

theorem foldl_add_amount (l : List FundingSource) (a : ℚ) :
    l.foldl (fun acc s => acc + s.amount) a = a + (l.map fun s => s.amount).sum := by
  induction l generalizing a with
  | nil => simp
  | cons s t ih => simp [ih, add_assoc]

theorem totalFunding_eq_sum (fundingSources : List FundingSource) :
    totalFunding fundingSources
      = ((fundingSources.filter fun s => s.enabled).map fun s => s.amount).sum := by
  simp [totalFunding, foldl_add_amount]

theorem sum_filter_pos_amounts (fs : List FundingSource)
    (h : ∀ s ∈ fs, s.enabled = true → 0 ≤ s.amount) :
    ((fs.filter fun s => s.enabled && decide (0 < s.amount)).map fun s => s.amount).sum
      = ((fs.filter fun s => s.enabled).map fun s => s.amount).sum := by
  induction fs with
  | nil => rfl
  | cons s t ih =>
    have ht : ∀ u ∈ t, u.enabled = true → 0 ≤ u.amount :=
      fun u hu => h u (List.mem_cons_of_mem _ hu)
    by_cases hs : s.enabled = true
    · by_cases ha : (0:ℚ) < s.amount
      · simp [List.filter_cons, hs, ha, ih ht]
      · have h0 : s.amount = 0 :=
          le_antisymm (not_lt.mp ha) (h s (List.mem_cons_self s t) hs)
        simp [List.filter_cons, hs, ha, ih ht, h0]
    · simp [List.filter_cons, hs, ih ht]

theorem sum_map_div_mul (l : List FundingSource) (T dp : ℚ) :
    (l.map fun s => s.amount / T * dp).sum
      = (l.map fun s => s.amount).sum / T * dp := by
  induction l with
  | nil => simp
  | cons s t ih => simp [ih, add_div, add_mul]

theorem filter_enabled_pos_nil (fs : List FundingSource)
    (h : ∀ s ∈ fs, s.enabled = true → s.amount = 0) :
    fs.filter (fun s => s.enabled && decide (0 < s.amount)) = [] := by
  induction fs with
  | nil => rfl
  | cons s t ih =>
    have ht : ∀ u ∈ t, u.enabled = true → u.amount = 0 :=
      fun u hu => h u (List.mem_cons_of_mem _ hu)
    by_cases hs : s.enabled = true
    · have h0 := h s (List.mem_cons_self s t) hs
      simp [List.filter_cons, hs, h0, ih ht]
    · simp [List.filter_cons, hs, ih ht]

/-! Claim theorems. -/

/-- C1 (counterexample): on the Example-1 inputs the Calculator's
totalInterest is below 247220.39, hence more than 0.1 away from the claimed
247220.49.  The exact rational value is about 247220.1346, and float64
evaluation of the source agrees with it to about 1e-9, so the discrepancy
of about 0.355 is not a floating-point-tolerance effect. -/
theorem c1_counterexample :
    (calculateMortgage example1 initialFundingSources).totalInterest + 1/10
      < 24722049/100 := by
  simp only [calculateMortgage, example1]
  norm_num

/-- C1 (amended): on the Example-1 inputs, monthlyPayment is within 0.01 of
1520.06 and totalInterest is within 0.01 of 247220.13. -/
theorem c1_amended :
    |(calculateMortgage example1 initialFundingSources).monthlyPayment
        - 152006/100| < 1/100 ∧
    |(calculateMortgage example1 initialFundingSources).totalInterest
        - 24722013/100| < 1/100 := by
  rw [abs_sub_lt_iff, abs_sub_lt_iff]
  refine ⟨⟨?_, ?_⟩, ?_, ?_⟩ <;> (simp only [calculateMortgage, example1]; norm_num)

/-- C2 (counterexample): with propertyValue = 0 (falsy in JavaScript), the
effect does not write the recomputed loan amount even though it differs
from the current one by more than 0.01: at propertyValue = 0,
downPayment = 5, loanAmount = 100 the recomputed value is max(0, 0-5) = 0
but the effect leaves loanAmount at 100. -/
theorem c2_counterexample :
    updateLoanAmountEffect false 0 5 100 ≠ max 0 ((0:ℚ) - 5) ∧
    |max 0 ((0:ℚ) - 5) - 100| > 1/100 := by
  have hmax : max 0 ((0:ℚ) - 5) = 0 := max_eq_left (by norm_num)
  rw [hmax]
  constructor
  · simp [updateLoanAmountEffect]
  · rw [show (0:ℚ) - 100 = -100 by norm_num, abs_neg, abs_of_nonneg (by norm_num)]
    norm_num

/-- C2 (amended): when the user edits propertyValue or downPayment (so the
re-entrancy flag is down), propertyValue is nonzero (truthy), and
max(0, propertyValue - downPayment) differs from the current loanAmount by
more than 0.01, the effect sets loanAmount to that recomputed value. -/
theorem c2_amended (pv dp la : ℚ) (hpv : pv ≠ 0)
    (hdiff : |max 0 (pv - dp) - la| > 1/100) :
    updateLoanAmountEffect false pv dp la = max 0 (pv - dp) := by
  have h1 : updateLoanAmountEffect false pv dp la
      = if pv = 0 then la
        else if |max 0 (pv - dp) - la| > 1/100 then max 0 (pv - dp) else la := rfl
  rw [h1, if_neg hpv, if_pos hdiff]

/-- C2 (witness): editing downPayment to 80000 with propertyValue 360000
and loanAmount 300000 drives loanAmount to 280000. -/
theorem c2_witness : updateLoanAmountEffect false 360000 80000 300000 = 280000 := by
  have hmax : max 0 ((360000:ℚ) - 80000) = 280000 := by
    rw [show (360000:ℚ) - 80000 = 280000 by norm_num]
    exact max_eq_right (by norm_num)
  have hdiff : |max 0 ((360000:ℚ) - 80000) - 300000| > 1/100 := by
    rw [hmax, show (280000:ℚ) - 300000 = -20000 by norm_num, abs_neg,
      abs_of_nonneg (by norm_num)]
    norm_num
  rw [c2_amended 360000 80000 300000 (by norm_num) hdiff, hmax]

/-- C3 (code evaluated at the failing inputs): for every form data with
interestRate = 0 the source's unguarded division has denominator
x - 1 = 0 with numerator 0, so JavaScript yields NaN: there is no
monthlyRate == 0 branch returning principal / numPayments. -/
theorem c3_zero_rate_yields_nonfinite (data : MortgageCalculatorFormData)
    (h : data.interestRate = 0) : monthlyPaymentJS data = none := by
  simp [monthlyPaymentJS, jsDiv, h]

/-- C3 (witness): the Example-1 inputs with interestRate = 0. -/
theorem c3_witness :
    monthlyPaymentJS { example1 with interestRate := 0 } = none :=
  c3_zero_rate_yields_nonfinite _ rfl

/-- C4 (code evaluated at the failing inputs): for every form data with
loanTerm = 0 the denominator x - 1 is zero, so JavaScript silently yields a
non-finite monthlyPayment and totalInterest; no DomainError exists anywhere
in the source (it defines no error type and throws nothing). -/
theorem c4_zero_term_yields_nonfinite (data : MortgageCalculatorFormData)
    (h : data.loanTerm = 0) :
    monthlyPaymentJS data = none ∧ totalInterestJS data = none := by
  have hm : monthlyPaymentJS data = none := by
    simp [monthlyPaymentJS, jsDiv, h]
  exact ⟨hm, by simp [totalInterestJS, hm]⟩

/-- C4 (witness): the Example-1 inputs with loanTerm = 0. -/
theorem c4_witness :
    monthlyPaymentJS { example1 with loanTerm := 0 } = none ∧
    totalInterestJS { example1 with loanTerm := 0 } = none :=
  c4_zero_term_yields_nonfinite _ rfl

/-- C5: when every enabled source has a nonnegative amount and the total
enabled funding is positive, the breakdown values sum to exactly
downPayment (exact rational equality, hence within any tolerance). -/
theorem c5_allocation_normalized (data : MortgageCalculatorFormData)
    (fundingSources : List FundingSource)
    (hnn : ∀ s ∈ fundingSources, s.enabled = true → 0 ≤ s.amount)
    (hpos : 0 < totalFunding fundingSources) :
    ((calculateMortgage data fundingSources).breakdown.map Prod.snd).sum
      = data.downPayment := by
  simp only [calculateMortgage, List.map_map]
  have hcomp : (Prod.snd ∘ fun s : FundingSource =>
      (s.name, s.amount / totalFunding fundingSources * data.downPayment))
      = fun s : FundingSource =>
        s.amount / totalFunding fundingSources * data.downPayment := rfl
  rw [hcomp, sum_map_div_mul, sum_filter_pos_amounts fundingSources hnn,
    ← totalFunding_eq_sum, div_self (ne_of_gt hpos), one_mul]

/-- C5 (witness): on the default funding sources and Example-1 data the
breakdown sums to the down payment. -/
theorem c5_witness :
    ((calculateMortgage example1 initialFundingSources).breakdown.map Prod.snd).sum
      = example1.downPayment := by
  refine c5_allocation_normalized example1 initialFundingSources ?_ ?_
  · intro s hs hen
    simp only [initialFundingSources, List.mem_cons, List.not_mem_nil, or_false] at hs
    rcases hs with rfl | rfl | rfl | rfl | rfl <;> norm_num
  · norm_num [totalFunding, initialFundingSources]

/-- C6: when no source is enabled, or every enabled source has amount 0,
the breakdown is empty — both in the exact-rational calculator and under
JavaScript float semantics, where an empty breakdown in particular
contains no NaN; the division by totalFunding is never evaluated. -/
theorem c6_zero_funding_guard (data : MortgageCalculatorFormData)
    (fundingSources : List FundingSource)
    (h : ∀ s ∈ fundingSources, s.enabled = true → s.amount = 0) :
    (calculateMortgage data fundingSources).breakdown = [] ∧
    breakdownJS fundingSources data.downPayment = [] := by
  constructor <;>
    simp [calculateMortgage, breakdownJS, filter_enabled_pos_nil _ h]

/-- C6 (witness): a state whose only enabled source has amount 0. -/
theorem c6_witness :
    (calculateMortgage example1 zeroFundingState).breakdown = [] ∧
    breakdownJS zeroFundingState example1.downPayment = [] := by
  refine c6_zero_funding_guard example1 zeroFundingState ?_
  intro s hs hen
  simp only [zeroFundingState, List.mem_cons, List.not_mem_nil, or_false] at hs
  rcases hs with rfl | rfl
  · norm_num
  · simp at hen

/-- C7: the two repository variants differ on the principal basis: on the
Example-1 inputs (downPayment = 60000 > 0) they return different monthly
payments, and on every input with downPayment = 0 they agree. -/
theorem c7_principal_basis :
    ((calculateMortgage example1 initialFundingSources).monthlyPayment
        ≠ (calculateMortgageV2 example1 initialFundingSources).monthlyPayment
      ∧ 0 < example1.downPayment) ∧
    ∀ (data : MortgageCalculatorFormData) (fundingSources : List FundingSource),
      data.downPayment = 0 →
        (calculateMortgage data fundingSources).monthlyPayment
          = (calculateMortgageV2 data fundingSources).monthlyPayment := by
  refine ⟨⟨?_, by norm_num [example1]⟩, ?_⟩
  · simp only [calculateMortgage, calculateMortgageV2, example1]
    norm_num
  · intro data fundingSources h
    simp [calculateMortgage, calculateMortgageV2, h]

/-- C7 (witness): on the Example-1 inputs with downPayment set to 0 the two
variants return the same monthly payment. -/
theorem c7_witness :
    (calculateMortgage { example1 with downPayment := 0 }
        initialFundingSources).monthlyPayment
      = (calculateMortgageV2 { example1 with downPayment := 0 }
        initialFundingSources).monthlyPayment :=
  c7_principal_basis.2 _ _ rfl

/-- C8: the Calculator is a pure function of the form data and the
funding-source state: two calls with identical inputs yield identical
results. -/
theorem c8_idempotent (d1 d2 : MortgageCalculatorFormData)
    (fs1 fs2 : List FundingSource) (hd : d1 = d2) (hfs : fs1 = fs2) :
    calculateMortgage d1 fs1 = calculateMortgage d2 fs2 := by
  rw [hd, hfs]

/-- C8 (witness): two calls on the Example-1 inputs agree. -/
theorem c8_witness :
    calculateMortgage example1 initialFundingSources
      = calculateMortgage example1 initialFundingSources :=
  c8_idempotent example1 example1 initialFundingSources initialFundingSources
    rfl rfl

/-- C9: with the Example-1 values, the 15-year monthly payment is strictly
greater than the 30-year one (about 2294.98 versus 1520.06). -/
theorem c9_shorter_term_higher_payment :
    (calculateMortgage { example1 with loanTerm := 15 }
        initialFundingSources).monthlyPayment
      > (calculateMortgage example1 initialFundingSources).monthlyPayment := by
  simp only [calculateMortgage, example1]
  norm_num
